import Mathlib

/-!
Shallow embedding of the AgentPass registry core (agent-protocol registry,
skill manager, monitor score functions and crawler) for verification of the
specification's claims.  Numbers of the JavaScript runtime are modelled as
rationals, `Date` objects by the ISO-8601 string `toISOString` would render
them to, and each impure call site (`new Date()`, `Date.now()`,
`crypto.randomBytes`, network fetchers) becomes an explicit argument.
-/

namespace AgentPass

/-- A JavaScript runtime value, as stored in the registry maps and produced
by `JSON.parse`.  `jdate s` is a `Date` object whose `toISOString()` is `s`;
`jundef` is the value `undefined`. -/
inductive JValue where
  | jnull
  | jundef
  | jbool (b : Bool)
  | jnum (q : ℚ)
  | jstr (s : String)
  | jarr (elems : List JValue)
  | jobj (fields : List (String × JValue))
  | jdate (iso : String)
  deriving Repr

/-- A `Date` value, identified by its ISO-8601 rendering. -/
abbrev JsDate := String

namespace JValue

/-- Test for the value `undefined` (used by `JSON.stringify`, which drops
object properties whose value is `undefined` and writes `null` for
`undefined` array elements). -/
def isUndef : JValue → Bool
  | jundef => true
  | _ => false

mutual

/-- `JSON.parse ∘ JSON.stringify` on a runtime value: `Date` objects are
serialized through `Date.prototype.toJSON` as their ISO-8601 strings;
object properties holding `undefined` are dropped; `undefined` array
elements become `null`; everything else is preserved. -/
def jsonEncode : JValue → JValue
  | jnull => jnull
  | jundef => jnull
  | jbool b => jbool b
  | jnum q => jnum q
  | jstr s => jstr s
  | jarr elems => jarr (jsonEncodeList elems)
  | jobj fields => jobj (jsonEncodeFields fields)
  | jdate iso => jstr iso

/-- Encode the elements of a JSON array. -/
def jsonEncodeList : List JValue → List JValue
  | [] => []
  | v :: vs => jsonEncode v :: jsonEncodeList vs

/-- Encode the properties of a JSON object, dropping `undefined` values. -/
def jsonEncodeFields : List (String × JValue) → List (String × JValue)
  | [] => []
  | (k, v) :: fs =>
      if v.isUndef then jsonEncodeFields fs
      else (k, jsonEncode v) :: jsonEncodeFields fs

end

end JValue

/-! ### Association-list model of the JavaScript `Map`s of the registry -/

/-- `Map.prototype.set`: replace the value at an existing key in place, or
append a fresh entry at the end (JS `Map` preserves insertion order). -/
def mapSet {α : Type} (m : List (String × α)) (k : String) (v : α) : List (String × α) :=
  if m.any (fun e => e.1 = k) then
    m.map (fun e => if e.1 = k then (k, v) else e)
  else m ++ [(k, v)]

/-- In-place mutation of the entry at key `k` (JS code obtains the stored
object with `get` and mutates its fields; the map keeps the same entry). -/
def mapMutate {α : Type} (m : List (String × α)) (k : String) (f : α → α) :
    List (String × α) :=
  m.map (fun e => if e.1 = k then (e.1, f e.2) else e)

/-! ### Entity types (src/agent-protocol/index.ts, SAP type definitions)

Each interface of the "Solana Agent Protocol (SAP) - Type Definitions"
document becomes a structure with the same fields in the same order;
`?` fields become `Option` fields defaulting to `none`, string-literal
unions are kept as their string tags, `number` is `ℚ` and `Date` is
`JsDate`. -/

/-- `AgentCapability` (index.ts type definitions). -/
structure AgentCapability where
  name : String
  description : String
  version : String
  enabled : Bool
  deriving DecidableEq, Repr

/-- `AgentLiveData` (index.ts type definitions): the most recent
external-signal snapshot attached to a profile, written by
`AgentCrawler.runCycle`. -/
structure AgentLiveData where
  githubStars : Option ℚ := none
  githubForks : Option ℚ := none
  githubCommits30d : Option ℚ := none
  githubLastPush : Option String := none
  githubRelease : Option String := none
  tokenPrice : Option ℚ := none
  tokenChange24h : Option ℚ := none
  tokenVolume24h : Option ℚ := none
  tokenSymbol : Option String := none
  lastCrawledAt : String
  crawlSource : List String
  liveScore : Option ℚ := none
  deriving DecidableEq, Repr

/-- The optional marketplace pricing record of a profile
(`pricing?: { pricePerTask?: number; currency: 'SOL' | 'USDC' }`). -/
structure AgentPricing where
  pricePerTask : Option ℚ := none
  currency : String
  deriving DecidableEq, Repr

/-- `AgentProfile` (index.ts type definitions): identity + reputation
record of one agent; `category` is the string tag of its literal union
and is optional, as are `tags`, `isExternal` and `pricing`. -/
structure AgentProfile where
  id : String
  name : String
  description : String
  version : String
  publicKey : Option String := none
  website : Option String := none
  github : Option String := none
  twitter : Option String := none
  category : Option String := none
  tags : Option (List String) := none
  isExternal : Option Bool := none
  capabilities : List AgentCapability := []
  reputation : ℚ
  tasksCompleted : ℚ
  successRate : ℚ
  createdAt : JsDate
  lastActive : JsDate
  pricing : Option AgentPricing := none
  liveData : Option AgentLiveData := none
  deriving DecidableEq, Repr

/-- `SkillParameter` (index.ts type definitions); the type tag is one of
string/number/boolean/address and `default` is `any`. -/
structure SkillParameter where
  name : String
  type : String
  description : String
  required : Bool
  default : Option JValue := none
  deriving Repr

/-- `AgentSkill` (index.ts type definitions): a named invokable
capability, with optional NFT metadata and marketplace fields. -/
structure AgentSkill where
  id : String
  name : String
  description : String
  category : String
  nftMint : Option String := none
  owner : Option String := none
  handler : String
  parameters : List SkillParameter := []
  price : Option ℚ := none
  royalty : Option ℚ := none
  usageCount : ℚ
  rating : ℚ
  deriving Repr

/-- Task status enumeration: `'pending' | 'running' | 'completed' | 'failed'`. -/
inductive TaskStatus where
  | pending
  | running
  | completed
  | failed
  deriving DecidableEq, Repr

/-- The optional payment record of a task (`payment?: { amount; currency;
payer; signature? }`). -/
structure TaskPayment where
  amount : ℚ
  currency : String
  payer : String
  signature : Option String := none
  deriving DecidableEq, Repr

/-- `AgentTask` (index.ts type definitions): one unit of requested work
and its outcome. -/
structure AgentTask where
  id : String
  agentId : String
  skillId : String
  description : String
  parameters : List (String × JValue) := []
  status : TaskStatus
  result : Option JValue := none
  error : Option String := none
  payment : Option TaskPayment := none
  createdAt : JsDate
  startedAt : Option JsDate := none
  completedAt : Option JsDate := none
  deriving Repr

/-- `AgentRegistry` (index.ts type definitions): the three entity maps
held by `SAPRegistry`. -/
structure AgentRegistry where
  agents : List (String × AgentProfile) := []
  skills : List (String × AgentSkill) := []
  tasks : List (String × AgentTask) := []
  deriving Repr

/-! ### SAPRegistry operations (src/agent-protocol/seed.ts)

Each method of `SAPRegistry` becomes a pure function on `AgentRegistry`;
the impure `generateAgentId()` and `new Date()` calls become the explicit
arguments `freshId` / `now`. -/

namespace SAPRegistry

/-- Caller-supplied part of a profile:
`Omit<AgentProfile, 'id' | 'createdAt' | 'lastActive'>`. -/
structure AgentProfileInput where
  name : String
  description : String
  version : String
  publicKey : Option String := none
  website : Option String := none
  github : Option String := none
  twitter : Option String := none
  category : Option String := none
  tags : Option (List String) := none
  isExternal : Option Bool := none
  capabilities : List AgentCapability := []
  reputation : ℚ
  tasksCompleted : ℚ
  successRate : ℚ
  pricing : Option AgentPricing := none
  liveData : Option AgentLiveData := none
  deriving DecidableEq, Repr

/-- `registerAgent`: spreads the caller profile, then assigns a fresh id,
`createdAt`/`lastActive`, and writes `reputation: 0`, `tasksCompleted: 0`,
`successRate: 100` (the object-literal fields after the spread overwrite
any caller-supplied values). -/
def registerAgent (reg : AgentRegistry) (profile : AgentProfileInput)
    (freshId : String) (now : JsDate) : String × AgentRegistry :=
  let fullProfile : AgentProfile :=
    { name := profile.name
      description := profile.description
      version := profile.version
      publicKey := profile.publicKey
      website := profile.website
      github := profile.github
      twitter := profile.twitter
      category := profile.category
      tags := profile.tags
      isExternal := profile.isExternal
      capabilities := profile.capabilities
      pricing := profile.pricing
      liveData := profile.liveData
      id := freshId
      createdAt := now
      lastActive := now
      reputation := 0
      tasksCompleted := 0
      successRate := 100 }
  (freshId, { reg with agents := mapSet reg.agents freshId fullProfile })

/-- `getAgent` -/
def getAgent (reg : AgentRegistry) (agentId : String) : Option AgentProfile :=
  (reg.agents.find? (fun e => e.1 = agentId)).map (fun e => e.2)

/-- `listAgents` -/
def listAgents (reg : AgentRegistry) : List AgentProfile :=
  reg.agents.map (fun e => e.2)

/-- `registerExternalAgent`: same as `registerAgent` but with no overwrite
after the spread — reputation and stats of the caller profile are kept. -/
def registerExternalAgent (reg : AgentRegistry) (profile : AgentProfileInput)
    (freshId : String) (now : JsDate) : String × AgentRegistry :=
  let fullProfile : AgentProfile :=
    { name := profile.name
      description := profile.description
      version := profile.version
      publicKey := profile.publicKey
      website := profile.website
      github := profile.github
      twitter := profile.twitter
      category := profile.category
      tags := profile.tags
      isExternal := profile.isExternal
      capabilities := profile.capabilities
      pricing := profile.pricing
      liveData := profile.liveData
      reputation := profile.reputation
      tasksCompleted := profile.tasksCompleted
      successRate := profile.successRate
      id := freshId
      createdAt := now
      lastActive := now }
  (freshId, { reg with agents := mapSet reg.agents freshId fullProfile })

/-- `updateReputation(agentId, taskSuccess)`: no-op on an unknown id;
otherwise `tasksCompleted++`, reputation `min(100, r+1)` on success or
`max(0, r-2)` on failure, then
`successRate = (reputation / tasksCompleted) * 100` and a fresh
`lastActive`. -/
def updateReputation (reg : AgentRegistry) (agentId : String)
    (taskSuccess : Bool) (now : JsDate) : AgentRegistry :=
  match getAgent reg agentId with
  | none => reg
  | some agent =>
      let agent := { agent with tasksCompleted := agent.tasksCompleted + 1 }
      let agent :=
        if taskSuccess then { agent with reputation := min 100 (agent.reputation + 1) }
        else { agent with reputation := max 0 (agent.reputation - 2) }
      let agent :=
        { agent with
            successRate := agent.reputation / agent.tasksCompleted * 100
            lastActive := now }
      { reg with agents := mapMutate reg.agents agentId (fun _ => agent) }

/-- `registerSkill` input: `Omit<AgentSkill, 'id' | 'usageCount' | 'rating'>`. -/
structure AgentSkillInput where
  name : String
  description : String
  category : String
  nftMint : Option String := none
  owner : Option String := none
  handler : String
  parameters : List SkillParameter := []
  price : Option ℚ := none
  royalty : Option ℚ := none
  deriving Repr

/-- `registerSkill`: assigns a fresh id, `usageCount: 0`, `rating: 0`. -/
def registerSkill (reg : AgentRegistry) (skill : AgentSkillInput)
    (freshId : String) : String × AgentRegistry :=
  let fullSkill : AgentSkill :=
    { name := skill.name
      description := skill.description
      category := skill.category
      nftMint := skill.nftMint
      owner := skill.owner
      handler := skill.handler
      parameters := skill.parameters
      price := skill.price
      royalty := skill.royalty
      id := freshId
      usageCount := 0
      rating := 0 }
  (freshId, { reg with skills := mapSet reg.skills freshId fullSkill })

/-- `getSkill` -/
def getSkill (reg : AgentRegistry) (skillId : String) : Option AgentSkill :=
  (reg.skills.find? (fun e => e.1 = skillId)).map (fun e => e.2)

/-- `createTask`: fresh id, `status: 'pending'`, `createdAt: now`. -/
def createTask (reg : AgentRegistry) (agentId skillId description : String)
    (parameters : List (String × JValue)) (freshId : String) (now : JsDate) :
    String × AgentRegistry :=
  let task : AgentTask :=
    { id := freshId
      agentId := agentId
      skillId := skillId
      description := description
      parameters := parameters
      status := TaskStatus.pending
      createdAt := now }
  (freshId, { reg with tasks := mapSet reg.tasks freshId task })

/-- `getTask` -/
def getTask (reg : AgentRegistry) (taskId : String) : Option AgentTask :=
  (reg.tasks.find? (fun e => e.1 = taskId)).map (fun e => e.2)

/-- `updateTaskStatus(taskId, status, result?, error?)`: no-op on an
unknown task.  Sets the status unconditionally; stamps `startedAt` on a
`running` status if not yet set; on a `completed`/`failed` status stamps
`completedAt`, stores result/error, applies the reputation update to the
owning agent and increments the target skill's `usageCount` if the skill
exists.  There is no check that the task was not already terminal. -/
def updateTaskStatus (reg : AgentRegistry) (taskId : String)
    (status : TaskStatus) (result : Option JValue) (error : Option String)
    (now : JsDate) : AgentRegistry :=
  match getTask reg taskId with
  | none => reg
  | some task =>
      let task := { task with status := status }
      let task :=
        if status = TaskStatus.running ∧ task.startedAt = none then
          { task with startedAt := some now }
        else task
      if status = TaskStatus.completed ∨ status = TaskStatus.failed then
        let task :=
          { task with completedAt := some now, result := result, error := error }
        let reg := { reg with tasks := mapMutate reg.tasks taskId (fun _ => task) }
        let reg := updateReputation reg task.agentId (status = TaskStatus.completed) now
        match getSkill reg task.skillId with
        | some skill =>
            { reg with
                skills := mapMutate reg.skills task.skillId
                  (fun _ => { skill with usageCount := skill.usageCount + 1 }) }
        | none => reg
      else
        { reg with tasks := mapMutate reg.tasks taskId (fun _ => task) }

end SAPRegistry

/-! ### Monitor: GitHub score (src/monitor/github.ts) -/

/-- Normalized repository statistics returned by `fetchGitHubStats`. -/
structure GitHubStats where
  repo : String
  stars : ℚ
  forks : ℚ
  openIssues : ℚ
  lastPush : String
  latestRelease : Option String := none
  commits30d : ℚ
  deriving DecidableEq, Repr

/-- `computeGitHubScore(stats)`: tiered score from stars, 30-day commits
and recency of the last push.  The source's `score +=` accumulation is a
sum of the three independent tier contributions (no tier condition reads
the accumulator).  `Date.now()` becomes `nowMs` and
`new Date(s).getTime()` becomes `parseDate s` (`none` models `NaN`, with
which both recency comparisons are false). -/
def computeGitHubScore (parseDate : String → Option ℚ) (nowMs : ℚ)
    (stats : GitHubStats) : ℚ :=
  (if stats.stars ≥ 10000 then (6 : ℚ)
   else if stats.stars ≥ 5000 then 5
   else if stats.stars ≥ 2000 then 4
   else if stats.stars ≥ 500 then 2
   else if stats.stars ≥ 100 then 1
   else 0) +
  (if stats.commits30d ≥ 20 then (2 : ℚ)
   else if stats.commits30d ≥ 5 then 1
   else 0) +
  (match parseDate stats.lastPush with
   | none => (0 : ℚ)
   | some pushMs =>
       if (nowMs - pushMs) / (1000 * 60 * 60 * 24) ≤ 7 then 2
       else if (nowMs - pushMs) / (1000 * 60 * 60 * 24) ≤ 30 then 1
       else 0)

/-! ### Monitor: DexScreener (src/monitor/dexscreener.ts) -/

/-- Normalized token data returned by `fetchTokenData`. -/
structure DexTokenData where
  symbol : String
  priceUsd : ℚ
  change24h : ℚ
  volume24h : ℚ
  liquidity : Option ℚ := none
  pairAddress : Option String := none
  dex : Option String := none
  deriving DecidableEq, Repr

/-- `AGENT_TOKEN_MAP`: known token mints for seeded agents. -/
def AGENT_TOKEN_MAP : List (String × String) :=
  [ ("BonkBot", "DezXAZ8z7PnrnRJjz3wXBoRgixCa6xjnB7YaB1pPB263"),
    ("Drift Keeper Bot", "DriFtupJYLTosbwoN8koMbEYSx54aFAVLddWsbksjwg7"),
    ("Jito MEV Bot", "jtojtomepa8beP8AuQc6eXt5FriJwfFMwjx2ZEPnxR9"),
    ("Eliza (ai16z)", "HeLp6NuQkmYB4pYWo2zYs22mESHXPQYzXbB8n4V98jwC"),
    ("Solana Agent Kit", "JUPyiwrYJFskUPiHa7hkeR8VUtAeFoSYbKedZNsDvCN") ]

/-- `fetchAgentTokenData(agentName)`: look the name up in
`AGENT_TOKEN_MAP`; absent mapping yields `null` without any fetch.  The
network-bound `fetchTokenData` is an oracle argument. -/
def fetchAgentTokenData (fetchTokenData : String → Option DexTokenData)
    (agentName : String) : Option DexTokenData :=
  match AGENT_TOKEN_MAP.find? (fun e => e.1 = agentName) with
  | none => none
  | some e => fetchTokenData e.2

/-- `computeDexScore(token)`: tiered score from 24h volume and 24h price
change; the source's `score +=` accumulation is a sum of the two
independent tier contributions. -/
def computeDexScore (token : DexTokenData) : ℚ :=
  (if token.volume24h ≥ 10000000 then (2 : ℚ)
   else if token.volume24h ≥ 1000000 then 1
   else if token.volume24h < 10000 then -1
   else 0) +
  (if token.change24h ≤ -30 then (-2 : ℚ)
   else if token.change24h ≤ -15 then -1
   else if token.change24h ≥ 20 then 1
   else 0)

/-! ### Crawler (src/monitor/crawler.ts) -/

/-- Per-agent result of one crawl cycle. -/
structure CrawlResult where
  agentId : String
  agentName : String
  sources : List String
  liveScore : ℚ
  updatedAt : String
  error : Option String := none
  deriving DecidableEq, Repr

/-- The impure collaborators of one crawl cycle: the two fetchers (whose
failures and `null` results both yield `none` — `runCycle` catches fetch
errors and then skips the same assignments), date parsing and the clock. -/
structure CrawlOracles where
  fetchGitHubStats : String → Option GitHubStats
  fetchTokenData : String → Option DexTokenData
  parseDate : String → Option ℚ
  nowMs : ℚ

/-- Loop body of `AgentCrawler.runCycle` for one agent: builds the
`CrawlResult` and the fresh `AgentLiveData` snapshot, attempting the
GitHub source only when the profile has a `github` link and the
DexScreener source always (keyed by agent name), then clamps the combined
score to [-10, +10]. -/
def crawlAgent (o : CrawlOracles) (now : String) (agent : AgentProfile) :
    CrawlResult × AgentLiveData :=
  let result : CrawlResult :=
    { agentId := agent.id, agentName := agent.name, sources := [],
      liveScore := 0, updatedAt := now }
  let liveData : AgentLiveData := { lastCrawledAt := now, crawlSource := [] }
  let (result, liveData) :=
    match agent.github with
    | none => (result, liveData)
    | some url =>
        match o.fetchGitHubStats url with
        | none => (result, liveData)
        | some ghStats =>
            ({ result with
                sources := result.sources ++ ["github"],
                liveScore := result.liveScore +
                  computeGitHubScore o.parseDate o.nowMs ghStats },
             { liveData with
                githubStars := some ghStats.stars,
                githubForks := some ghStats.forks,
                githubCommits30d := some ghStats.commits30d,
                githubLastPush := some ghStats.lastPush,
                githubRelease := ghStats.latestRelease,
                crawlSource := liveData.crawlSource ++ ["github"] })
  let (result, liveData) :=
    match fetchAgentTokenData o.fetchTokenData agent.name with
    | none => (result, liveData)
    | some tokenData =>
        ({ result with
            sources := result.sources ++ ["dexscreener"],
            liveScore := result.liveScore + computeDexScore tokenData },
         { liveData with
            tokenSymbol := some tokenData.symbol,
            tokenPrice := some tokenData.priceUsd,
            tokenChange24h := some tokenData.change24h,
            tokenVolume24h := some tokenData.volume24h,
            crawlSource := liveData.crawlSource ++ ["dexscreener"] })
  let clamped := max (-10) (min 10 result.liveScore)
  ({ result with liveScore := clamped },
   { liveData with liveScore := some clamped })

/-- Loop iteration of `runCycle` over the accumulated registry and results:
writes the fresh snapshot back onto the stored profile unconditionally (if
the id is still present) and appends the result only when at least one
source contributed. -/
def crawlStep (o : CrawlOracles) (now : String)
    (acc : AgentRegistry × List CrawlResult) (agent : AgentProfile) :
    AgentRegistry × List CrawlResult :=
  let (result, liveData) := crawlAgent o now agent
  let reg' :=
    match SAPRegistry.getAgent acc.1 agent.id with
    | some _ =>
        { acc.1 with
            agents := mapMutate acc.1.agents agent.id
              (fun p => { p with liveData := some liveData }) }
    | none => acc.1
  (reg', if result.sources.length > 0 then acc.2 ++ [result] else acc.2)

/-- `AgentCrawler.runCycle`: walks a snapshot of all agents, applying
`crawlStep` to each. -/
def runCycle (o : CrawlOracles) (now : String) (reg : AgentRegistry) :
    AgentRegistry × List CrawlResult :=
  (SAPRegistry.listAgents reg).foldl (crawlStep o now) (reg, [])

/-! ### Skill Manager (`SkillManager.executeSkill`) -/

namespace SkillManager

/-- An executable skill handler: an async function of the parameter bag
that either resolves with a result or rejects.  Handlers are opaque
collaborators (spec §6) and do not touch the registry; the source still
re-reads the skill after the handler resolves, which is mirrored below. -/
def Handler : Type := List (String × JValue) → Except String JValue

/-- `executeSkill(skillId, parameters)`: throws `Skill not found` when the
metadata store has no such id, `Handler not found` when the handler map has
none, `Missing required parameter: p` for the first required parameter
name absent from the bag; otherwise runs the handler, and only after it
resolves increments the skill's `usageCount`.  Returns the outcome
together with the resulting registry. -/
def executeSkill (reg : AgentRegistry) (skillHandlers : List (String × Handler))
    (skillId : String) (parameters : List (String × JValue)) :
    Except String JValue × AgentRegistry :=
  match SAPRegistry.getSkill reg skillId with
  | none => (Except.error ("Skill not found: " ++ skillId), reg)
  | some skill =>
      match skillHandlers.find? (fun e => e.1 = skillId) with
      | none => (Except.error ("Handler not found for skill: " ++ skill.name), reg)
      | some h =>
          match skill.parameters.find?
              (fun param => param.required && !(parameters.any (fun e => e.1 = param.name))) with
          | some param =>
              (Except.error ("Missing required parameter: " ++ param.name), reg)
          | none =>
              match h.2 parameters with
              | Except.error e => (Except.error e, reg)
              | Except.ok result =>
                  match SAPRegistry.getSkill reg skillId with
                  | some updatedSkill =>
                      (Except.ok result,
                       { reg with
                           skills := mapMutate reg.skills skillId
                             (fun _ => { updatedSkill with
                                           usageCount := updatedSkill.usageCount + 1 }) })
                  | none => (Except.ok result, reg)

end SkillManager

/-! ### Persistence: `exportData` / `importData` (src/agent-protocol/seed.ts)

`exportData` serializes the three maps with `JSON.stringify`; `importData`
runs `JSON.parse` and rebuilds each map with `new Map(...)` inside one
`try/catch`.  The string round trip `JSON.parse(data)` is modelled at the
value level: `importData` receives `Option JValue`, where `none` is a
`JSON.parse` exception, and `importData (some (exportParsed reg))` is
exactly `importData(exportData())`. -/

/-- The registry maps at the JavaScript value level (keys of a `Map` may
be arbitrary values once rebuilt from untrusted entries). -/
structure JsRegistry where
  agents : List (JValue × JValue) := []
  skills : List (JValue × JValue) := []
  tasks : List (JValue × JValue) := []
  deriving Repr

/-- Property access `v[key]`: throws on `null`/`undefined`; returns the
own property of an object, and `undefined` (`none`) on primitives, arrays
and dates for the non-index keys used here. -/
def jsGet (v : JValue) (key : String) : Except String (Option JValue) :=
  match v with
  | JValue.jnull => Except.error "TypeError: Cannot read properties of null"
  | JValue.jundef => Except.error "TypeError: Cannot read properties of undefined"
  | JValue.jobj fields =>
      Except.ok ((fields.find? (fun f => f.1 = key)).map (fun f => f.2))
  | _ => Except.ok none

/-- One iterator value of `new Map(iterable)`: it must be an object, and
the entry is `(value[0], value[1])` (missing indices read as `undefined`).
A primitive iterator value raises a `TypeError`. -/
def mapEntryOf : JValue → Except String (JValue × JValue)
  | JValue.jarr elems =>
      Except.ok (elems.getD 0 JValue.jundef, elems.getD 1 JValue.jundef)
  | JValue.jobj fields =>
      Except.ok
        (((fields.find? (fun f => f.1 = "0")).map (fun f => f.2)).getD JValue.jundef,
         ((fields.find? (fun f => f.1 = "1")).map (fun f => f.2)).getD JValue.jundef)
  | JValue.jdate _ => Except.ok (JValue.jundef, JValue.jundef)
  | _ => Except.error "TypeError: Iterator value is not an entry object"

/-- Collect the entries of an array passed to `new Map(...)`, failing at
the first non-entry element.  (The JS `Map` constructor also collapses
duplicate keys, which no datum of this development exercises; entry order
is insertion order either way.) -/
def mapEntries : List JValue → Except String (List (JValue × JValue))
  | [] => Except.ok []
  | v :: vs => do
      let e ← mapEntryOf v
      let es ← mapEntries vs
      Except.ok (e :: es)

/-- `new Map(x)`: empty for `undefined`/`null`, entry collection for an
array, empty for the empty string (iterable with no elements), and a
`TypeError` for any other value (non-iterable numbers, booleans, plain
objects and dates; non-empty strings iterate over non-object characters). -/
def jsNewMap : Option JValue → Except String (List (JValue × JValue))
  | none => Except.ok []
  | some JValue.jundef => Except.ok []
  | some JValue.jnull => Except.ok []
  | some (JValue.jarr elems) => mapEntries elems
  | some (JValue.jstr s) =>
      if s = "" then Except.ok []
      else Except.error "TypeError: Iterator value is not an entry object"
  | some _ => Except.error "TypeError: value is not iterable"

/-- `importData(data)`: inside `try`, parse, then reassign
`registry.agents`, `registry.skills`, `registry.tasks` in that order from
`new Map(parsed.*)`; `catch` only logs, so a failure keeps every
assignment already made and leaves the remaining maps as they were. -/
def importData (st : JsRegistry) (parsed : Option JValue) : JsRegistry :=
  match parsed with
  | none => st
  | some v =>
      match jsGet v "agents" with
      | Except.error _ => st
      | Except.ok agentsField =>
          match jsNewMap agentsField with
          | Except.error _ => st
          | Except.ok ags =>
              let st1 : JsRegistry := { st with agents := ags }
              match jsGet v "skills" with
              | Except.error _ => st1
              | Except.ok skillsField =>
                  match jsNewMap skillsField with
                  | Except.error _ => st1
                  | Except.ok sks =>
                      let st2 : JsRegistry := { st1 with skills := sks }
                      match jsGet v "tasks" with
                      | Except.error _ => st2
                      | Except.ok tasksField =>
                          match jsNewMap tasksField with
                          | Except.error _ => st2
                          | Except.ok tks => { st2 with tasks := tks }

/-! ### Runtime representation of the typed entities

`toJs` renders each stored entity as the JavaScript object it is in
memory: `Date` fields are `Date` objects (`jdate`), absent optional fields
are `undefined`.  `exportParsed` is then the parsed form of the
`exportData()` string. -/

/-- Render an optional field (`undefined` when absent). -/
def optJs (f : α → JValue) : Option α → JValue
  | none => JValue.jundef
  | some a => f a

/-- Render an optional field already holding a runtime value. -/
def optVal : Option JValue → JValue
  | none => JValue.jundef
  | some v => v

/-- Runtime object of one capability tuple. -/
def capabilityToJs (c : AgentCapability) : JValue :=
  JValue.jobj
    [ ("name", JValue.jstr c.name),
      ("description", JValue.jstr c.description),
      ("version", JValue.jstr c.version),
      ("enabled", JValue.jbool c.enabled) ]

/-- Runtime object of a live-data snapshot. -/
def liveDataToJs (d : AgentLiveData) : JValue :=
  JValue.jobj
    [ ("githubStars", optJs JValue.jnum d.githubStars),
      ("githubForks", optJs JValue.jnum d.githubForks),
      ("githubCommits30d", optJs JValue.jnum d.githubCommits30d),
      ("githubLastPush", optJs JValue.jstr d.githubLastPush),
      ("githubRelease", optJs JValue.jstr d.githubRelease),
      ("tokenPrice", optJs JValue.jnum d.tokenPrice),
      ("tokenChange24h", optJs JValue.jnum d.tokenChange24h),
      ("tokenVolume24h", optJs JValue.jnum d.tokenVolume24h),
      ("tokenSymbol", optJs JValue.jstr d.tokenSymbol),
      ("lastCrawledAt", JValue.jstr d.lastCrawledAt),
      ("crawlSource", JValue.jarr (d.crawlSource.map JValue.jstr)),
      ("liveScore", optJs JValue.jnum d.liveScore) ]

/-- Runtime object of the pricing record. -/
def pricingToJs (c : AgentPricing) : JValue :=
  JValue.jobj
    [ ("pricePerTask", optJs JValue.jnum c.pricePerTask),
      ("currency", JValue.jstr c.currency) ]

/-- Runtime object of an agent profile; `createdAt`/`lastActive` are
`Date` objects. -/
def profileToJs (p : AgentProfile) : JValue :=
  JValue.jobj
    [ ("id", JValue.jstr p.id),
      ("name", JValue.jstr p.name),
      ("description", JValue.jstr p.description),
      ("version", JValue.jstr p.version),
      ("publicKey", optJs JValue.jstr p.publicKey),
      ("website", optJs JValue.jstr p.website),
      ("github", optJs JValue.jstr p.github),
      ("twitter", optJs JValue.jstr p.twitter),
      ("category", optJs JValue.jstr p.category),
      ("tags", optJs (fun ts => JValue.jarr (ts.map JValue.jstr)) p.tags),
      ("isExternal", optJs JValue.jbool p.isExternal),
      ("capabilities", JValue.jarr (p.capabilities.map capabilityToJs)),
      ("reputation", JValue.jnum p.reputation),
      ("tasksCompleted", JValue.jnum p.tasksCompleted),
      ("successRate", JValue.jnum p.successRate),
      ("createdAt", JValue.jdate p.createdAt),
      ("lastActive", JValue.jdate p.lastActive),
      ("pricing", optJs pricingToJs p.pricing),
      ("liveData", optJs liveDataToJs p.liveData) ]

/-- Runtime object of one skill parameter. -/
def parameterToJs (q : SkillParameter) : JValue :=
  JValue.jobj
    [ ("name", JValue.jstr q.name),
      ("type", JValue.jstr q.type),
      ("description", JValue.jstr q.description),
      ("required", JValue.jbool q.required),
      ("default", optVal q.default) ]

/-- Runtime object of a skill. -/
def skillToJs (s : AgentSkill) : JValue :=
  JValue.jobj
    [ ("id", JValue.jstr s.id),
      ("name", JValue.jstr s.name),
      ("description", JValue.jstr s.description),
      ("category", JValue.jstr s.category),
      ("nftMint", optJs JValue.jstr s.nftMint),
      ("owner", optJs JValue.jstr s.owner),
      ("handler", JValue.jstr s.handler),
      ("parameters", JValue.jarr (s.parameters.map parameterToJs)),
      ("price", optJs JValue.jnum s.price),
      ("royalty", optJs JValue.jnum s.royalty),
      ("usageCount", JValue.jnum s.usageCount),
      ("rating", JValue.jnum s.rating) ]

/-- String tag of a task status. -/
def TaskStatus.tag : TaskStatus → String
  | TaskStatus.pending => "pending"
  | TaskStatus.running => "running"
  | TaskStatus.completed => "completed"
  | TaskStatus.failed => "failed"

/-- Runtime object of the payment record of a task. -/
def paymentToJs (c : TaskPayment) : JValue :=
  JValue.jobj
    [ ("amount", JValue.jnum c.amount),
      ("currency", JValue.jstr c.currency),
      ("payer", JValue.jstr c.payer),
      ("signature", optJs JValue.jstr c.signature) ]

/-- Runtime object of a task; the three timestamps are `Date` objects. -/
def taskToJs (t : AgentTask) : JValue :=
  JValue.jobj
    [ ("id", JValue.jstr t.id),
      ("agentId", JValue.jstr t.agentId),
      ("skillId", JValue.jstr t.skillId),
      ("description", JValue.jstr t.description),
      ("parameters", JValue.jobj t.parameters),
      ("status", JValue.jstr t.status.tag),
      ("result", optVal t.result),
      ("error", optJs JValue.jstr t.error),
      ("payment", optJs paymentToJs t.payment),
      ("createdAt", JValue.jdate t.createdAt),
      ("startedAt", optJs JValue.jdate t.startedAt),
      ("completedAt", optJs JValue.jdate t.completedAt) ]

/-- The registry maps as they are held at run time. -/
def AgentRegistry.toJs (reg : AgentRegistry) : JsRegistry :=
  { agents := reg.agents.map (fun e => (JValue.jstr e.1, profileToJs e.2)),
    skills := reg.skills.map (fun e => (JValue.jstr e.1, skillToJs e.2)),
    tasks := reg.tasks.map (fun e => (JValue.jstr e.1, taskToJs e.2)) }

/-- `Array.from(map.entries())` rendered as a runtime value. -/
def entriesToJs (m : List (JValue × JValue)) : JValue :=
  JValue.jarr (m.map (fun e => JValue.jarr [e.1, e.2]))

/-- `JSON.parse` of the `exportData()` string: the stringified object of
the three entry arrays, pushed through the JSON encoding (`Date`s become
their ISO strings, `undefined` properties are dropped). -/
def exportParsed (reg : AgentRegistry) : JValue :=
  JValue.jsonEncode
    (JValue.jobj
      [ ("agents", entriesToJs reg.toJs.agents),
        ("skills", entriesToJs reg.toJs.skills),
        ("tasks", entriesToJs reg.toJs.tasks) ])

/-! ### Concrete instances used by witnesses and counterexamples -/

/-- A freshly registered agent (reputation 0, no tasks). -/
def agentX : AgentProfile :=
  { id := "x", name := "X", description := "demo agent", version := "1.0.0",
    category := "utility", reputation := 0, tasksCompleted := 0,
    successRate := 100, createdAt := "t0", lastActive := "t0" }

/-- A built-in skill with no uses yet. -/
def skillS : AgentSkill :=
  { id := "s", name := "Balance Checker", description := "demo skill",
    category := "analytics", handler := "checkBalance", usageCount := 0,
    rating := 0 }

/-- A pending task of `agentX` against `skillS`. -/
def taskT : AgentTask :=
  { id := "t", agentId := "x", skillId := "s", description := "demo task",
    status := TaskStatus.pending, createdAt := "t0" }

/-- A registry with one agent, one skill and one pending task. -/
def reg0 : AgentRegistry :=
  { agents := [("x", agentX)], skills := [("s", skillS)], tasks := [("t", taskT)] }

/-- A handler map whose only handler always rejects. -/
def failingHandlers : List (String × SkillManager.Handler) :=
  [("s", fun _ => Except.error "handler exploded")]

/-- A caller profile carrying pre-supplied reputation and stats (the values
of the `Solana Agent Kit` seed entry). -/
def seededInput : SAPRegistry.AgentProfileInput :=
  { name := "Solana Agent Kit", description := "seed", version := "1.0.0",
    category := "framework", reputation := 91, tasksCompleted := 48200,
    successRate := 487 / 5 }

/-- A minimal caller profile. -/
def plainInput : SAPRegistry.AgentProfileInput :=
  { name := "N", description := "d", version := "v", category := "other",
    reputation := 0, tasksCompleted := 0, successRate := 100 }

/-- A reachable registry: one `registerAgent` call on a fresh store. -/
def regC6 : AgentRegistry :=
  (SAPRegistry.registerAgent {} plainInput "a1" "t0").2

/-- A live-data snapshot left by some earlier crawl cycle. -/
def oldLive : AgentLiveData :=
  { lastCrawledAt := "2023-01-01T00:00:00.000Z", crawlSource := ["dexscreener"],
    liveScore := some 2 }

/-- An agent with no source-repo link and no `AGENT_TOKEN_MAP` entry, that
already carries a live-data snapshot. -/
def unmappedAgent : AgentProfile :=
  { id := "u", name := "Photon Sol", description := "trading terminal",
    version := "4.0.0", category := "trading", reputation := 83,
    tasksCompleted := 3400000, successRate := 937 / 10, createdAt := "t0",
    lastActive := "t0", liveData := some oldLive }

/-- An agent whose name is mapped in `AGENT_TOKEN_MAP`. -/
def bonkAgent : AgentProfile :=
  { id := "b", name := "BonkBot", description := "telegram bot",
    version := "3.1.0", category := "trading", reputation := 89,
    tasksCompleted := 5800000, successRate := 484 / 5, createdAt := "t0",
    lastActive := "t0" }

/-- Token data the DexScreener oracle returns for the BONK mint. -/
def bonkToken : DexTokenData :=
  { symbol := "BONK", priceUsd := 1 / 100000, change24h := 5,
    volume24h := 2000000 }

/-- Crawl oracles: GitHub always fails, DexScreener knows only the BONK
mint. -/
def demoOracles : CrawlOracles :=
  { fetchGitHubStats := fun _ => none,
    fetchTokenData := fun mint =>
      if mint = "DezXAZ8z7PnrnRJjz3wXBoRgixCa6xjnB7YaB1pPB263" then some bonkToken
      else none,
    parseDate := fun _ => none,
    nowMs := 0 }

/-- Registry crawled in the C2 cycle: one unmapped and one mapped agent. -/
def crawlReg : AgentRegistry :=
  { agents := [("u", unmappedAgent), ("b", bonkAgent)] }

/-- A `JsRegistry` with one stored agent entry. -/
def stJs : JsRegistry :=
  { agents := [(JValue.jstr "a", JValue.jobj [("id", JValue.jstr "a")])] }

/-- `reg0` after task `t` is completed once (first terminal transition). -/
def reg0AfterComplete : AgentRegistry :=
  SAPRegistry.updateTaskStatus reg0 "t" TaskStatus.completed
    (some (JValue.jstr "ok")) none "t1"

/-- `reg0AfterComplete` after `updateTaskStatus` is invoked again with the
other terminal status. -/
def reg0AfterRefail : AgentRegistry :=
  SAPRegistry.updateTaskStatus reg0AfterComplete "t" TaskStatus.failed
    none (some "boom") "t2"

/-- A parsed snapshot whose `skills` field cannot be fed to `new Map`. -/
def badParsed : JValue :=
  JValue.jobj
    [ ("agents", JValue.jarr []),
      ("skills", JValue.jnum 0),
      ("tasks", JValue.jarr []) ]

/-! ## Helper lemmas on the association-list maps -/

theorem find?_mapSet_self {α : Type} (m : List (String × α)) (k : String) (v : α) :
    (mapSet m k v).find? (fun e => e.1 = k) = some (k, v) := by
  unfold mapSet
  split
  · rename_i hany
    induction m with
    | nil => simp at hany
    | cons e es ih =>
        simp only [List.any_cons, Bool.or_eq_true, decide_eq_true_eq] at hany
        by_cases hk : e.1 = k
        · simp [List.find?, hk]
        · simp only [List.map_cons, if_neg hk]
          rw [List.find?_cons_of_neg _ (by simpa using hk)]
          exact (ih (by tauto))
  · induction m with
    | nil => simp [List.find?]
    | cons e es ih =>
        rename_i hany
        simp only [List.any_cons, Bool.or_eq_true, decide_eq_true_eq, not_or] at hany
        rw [List.cons_append, List.find?_cons_of_neg _ (by simpa using hany.1)]
        exact ih (by simpa using hany.2)

theorem find?_mapMutate_self {α : Type} (m : List (String × α)) (k : String) (f : α → α) :
    (mapMutate m k f).find? (fun e => e.1 = k) =
      (m.find? (fun e => e.1 = k)).map (fun e => (e.1, f e.2)) := by
  induction m with
  | nil => simp [mapMutate]
  | cons e es ih =>
      by_cases hk : e.1 = k
      · simp [mapMutate, List.find?, hk]
      · simp only [mapMutate, List.map_cons, if_neg hk]
        rw [List.find?_cons_of_neg _ (by simpa using hk),
            List.find?_cons_of_neg _ (by simpa using hk)]
        exact ih

theorem find?_mapMutate_other {α : Type} (m : List (String × α)) (k j : String)
    (f : α → α) (hjk : j ≠ k) :
    (mapMutate m k f).find? (fun e => e.1 = j) =
      m.find? (fun e => e.1 = j) := by
  induction m with
  | nil => simp [mapMutate]
  | cons e es ih =>
      simp only [mapMutate, List.map_cons]
      by_cases hek : e.1 = k
      · have hej : ¬ e.1 = j := fun h => hjk (h ▸ hek)
        rw [if_pos hek]
        rw [List.find?_cons_of_neg _ (by simpa using hej),
            List.find?_cons_of_neg _ (by simpa using hej)]
        exact ih
      · rw [if_neg hek]
        by_cases hej : e.1 = j
        · rw [List.find?_cons_of_pos _ (by simpa using hej),
              List.find?_cons_of_pos _ (by simpa using hej)]
        · rw [List.find?_cons_of_neg _ (by simpa using hej),
              List.find?_cons_of_neg _ (by simpa using hej)]
          exact ih

/-! ## Claims -/

/-- C3 (counterexample): the claim that `computeGitHubScore` always lies in
[0, +8] is false — a repository with 10000 stars, 20 commits in 30 days
and a push at the current instant scores 6 + 2 + 2 = 10. -/
theorem computeGitHubScore_exceeds_eight :
    computeGitHubScore (fun _ => some 0) 0
      { repo := "sendaifun/solana-agent-kit", stars := 10000, forks := 0,
        openIssues := 0, lastPush := "1970-01-01T00:00:00.000Z",
        commits30d := 20 } = 10 ∧
    ¬ computeGitHubScore (fun _ => some 0) 0
      { repo := "sendaifun/solana-agent-kit", stars := 10000, forks := 0,
        openIssues := 0, lastPush := "1970-01-01T00:00:00.000Z",
        commits30d := 20 } ≤ 8 := by
  constructor <;> norm_num [computeGitHubScore]

/-- C3 (amended): for every `GitHubStats` input, every clock value and
every date-parsing outcome, `computeGitHubScore` returns a value in the
range [0, +10] (stars tier at most 6, commit tier at most 2, recency tier
at most 2). -/
theorem computeGitHubScore_range (parseDate : String → Option ℚ)
    (nowMs : ℚ) (stats : GitHubStats) :
    0 ≤ computeGitHubScore parseDate nowMs stats ∧
      computeGitHubScore parseDate nowMs stats ≤ 10 := by
  unfold computeGitHubScore
  cases parseDate stats.lastPush <;> dsimp only <;> split_ifs <;> norm_num

/-- C4 (counterexample): the claim that `computeDexScore` always lies in
[-2, +2] is false — a token with zero 24h volume and a 24h drop of 30%
scores (-1) + (-2) = -3. -/
theorem computeDexScore_below_minus_two :
    computeDexScore
      { symbol := "BONK", priceUsd := 0, change24h := -30, volume24h := 0 } = -3 ∧
    ¬ (-2 : ℚ) ≤ computeDexScore
      { symbol := "BONK", priceUsd := 0, change24h := -30, volume24h := 0 } := by
  constructor <;> norm_num [computeDexScore]

/-- C4 (amended): for every `DexTokenData` input (any volume and any price
change), `computeDexScore` returns a value in the range [-3, +3] (volume
tier in [-1, +2], price-change tier in [-2, +1]). -/
theorem computeDexScore_range (token : DexTokenData) :
    -3 ≤ computeDexScore token ∧ computeDexScore token ≤ 3 := by
  unfold computeDexScore
  split_ifs <;> norm_num

/-- C7 (counterexample): `registerAgent` does not preserve caller-supplied
reputation/stats — registering a profile that pre-supplies reputation 91
stores reputation 0 (the object-literal defaults after the spread always
overwrite). -/
theorem registerAgent_discards_supplied_reputation :
    (SAPRegistry.getAgent
        (SAPRegistry.registerAgent {} seededInput "a1" "t1").2 "a1").map
      AgentProfile.reputation = some 0 ∧
    seededInput.reputation = 91 := by
  constructor
  · simp [SAPRegistry.registerAgent, SAPRegistry.getAgent, mapSet, List.find?]
  · norm_num [seededInput]

/-- C7 (amended): `registerAgent` always succeeds, returns the fresh id and
stores the profile with `createdAt = lastActive = now` and with
`reputation = 0`, `tasksCompleted = 0`, `successRate = 100` regardless of
the supplied values (all other supplied fields are preserved); the
variant that preserves supplied reputation and stats is
`registerExternalAgent`. -/
theorem registerAgent_always_applies_defaults (reg : AgentRegistry)
    (profile : SAPRegistry.AgentProfileInput) (freshId : String) (now : JsDate) :
    (SAPRegistry.registerAgent reg profile freshId now).1 = freshId ∧
    SAPRegistry.getAgent (SAPRegistry.registerAgent reg profile freshId now).2 freshId =
      some
        { name := profile.name
          description := profile.description
          version := profile.version
          publicKey := profile.publicKey
          website := profile.website
          github := profile.github
          twitter := profile.twitter
          category := profile.category
          tags := profile.tags
          isExternal := profile.isExternal
          capabilities := profile.capabilities
          pricing := profile.pricing
          liveData := profile.liveData
          id := freshId
          createdAt := now
          lastActive := now
          reputation := 0
          tasksCompleted := 0
          successRate := 100 } ∧
    SAPRegistry.getAgent
        (SAPRegistry.registerExternalAgent reg profile freshId now).2 freshId =
      some
        { name := profile.name
          description := profile.description
          version := profile.version
          publicKey := profile.publicKey
          website := profile.website
          github := profile.github
          twitter := profile.twitter
          category := profile.category
          tags := profile.tags
          isExternal := profile.isExternal
          capabilities := profile.capabilities
          pricing := profile.pricing
          liveData := profile.liveData
          reputation := profile.reputation
          tasksCompleted := profile.tasksCompleted
          successRate := profile.successRate
          id := freshId
          createdAt := now
          lastActive := now } := by
  refine ⟨rfl, ?_, ?_⟩ <;>
    simp [SAPRegistry.registerAgent, SAPRegistry.registerExternalAgent,
      SAPRegistry.getAgent, find?_mapSet_self]

/-- C9: `updateReputation` is a no-op for an unknown agent id; for a known
id it increments `tasksCompleted` by exactly 1, then sets reputation to
`min(100, r+1)` on success or `max(0, r-2)` on failure, then sets
`successRate` to the new reputation divided by the new `tasksCompleted`
times 100 (anchored to the current reputation score), and stamps
`lastActive` with the current time. -/
theorem updateReputation_postcondition (reg : AgentRegistry) (agentId : String)
    (success : Bool) (now : JsDate) :
    (SAPRegistry.getAgent reg agentId = none →
      SAPRegistry.updateReputation reg agentId success now = reg) ∧
    (∀ agent, SAPRegistry.getAgent reg agentId = some agent →
      SAPRegistry.getAgent (SAPRegistry.updateReputation reg agentId success now)
          agentId =
        some { agent with
                 tasksCompleted := agent.tasksCompleted + 1
                 reputation :=
                   if success then min 100 (agent.reputation + 1)
                   else max 0 (agent.reputation - 2)
                 successRate :=
                   (if success then min 100 (agent.reputation + 1)
                    else max 0 (agent.reputation - 2)) /
                     (agent.tasksCompleted + 1) * 100
                 lastActive := now }) := by
  constructor
  · intro h
    unfold SAPRegistry.updateReputation
    rw [h]
  · intro agent h
    have h' := h
    unfold SAPRegistry.getAgent at h'
    obtain ⟨e, hfind, he2⟩ := Option.map_eq_some'.mp h'
    unfold SAPRegistry.updateReputation
    rw [h]
    unfold SAPRegistry.getAgent
    simp only [find?_mapMutate_self, hfind, Option.map_some']
    cases success <;> simp

/-- C9 (witness): on the empty store `updateReputation` of an unknown id
is the identity, and on `reg0` a successful call moves `agentX` to one
completed task, reputation 1, success rate 100 and a fresh `lastActive`. -/
theorem updateReputation_postcondition_witness :
    SAPRegistry.updateReputation {} "ghost" true "t1" = {} ∧
    SAPRegistry.getAgent (SAPRegistry.updateReputation reg0 "x" true "t1") "x" =
      some { agentX with
               tasksCompleted := 1
               reputation := 1
               successRate := 100
               lastActive := "t1" } := by
  constructor
  · exact (updateReputation_postcondition {} "ghost" true "t1").1 rfl
  · have h := (updateReputation_postcondition reg0 "x" true "t1").2 agentX (by
      simp [SAPRegistry.getAgent, reg0, List.find?])
    rw [h]
    simp [agentX]

/-- One `updateReputation` call preserves "every stored reputation lies in
[0, 100]" (shared step lemma for the clamp invariant). -/
theorem updateReputation_preserves_clamp (reg : AgentRegistry) (agentId : String)
    (success : Bool) (now : JsDate)
    (h : ∀ e ∈ reg.agents, 0 ≤ e.2.reputation ∧ e.2.reputation ≤ 100) :
    ∀ e ∈ (SAPRegistry.updateReputation reg agentId success now).agents,
      0 ≤ e.2.reputation ∧ e.2.reputation ≤ 100 := by
  unfold SAPRegistry.updateReputation
  cases hg : SAPRegistry.getAgent reg agentId with
  | none => exact h
  | some agent =>
      have hagent : 0 ≤ agent.reputation ∧ agent.reputation ≤ 100 := by
        unfold SAPRegistry.getAgent at hg
        obtain ⟨e, hfind, he2⟩ := Option.map_eq_some'.mp hg
        have hmem := List.mem_of_find?_eq_some hfind
        simpa [he2] using h e hmem
      intro e he
      simp only [mapMutate, List.mem_map] at he
      obtain ⟨e0, he0, heq⟩ := he
      rcases heq with rfl
      by_cases hk : e0.1 = agentId
      · simp only [if_pos hk]
        cases success
        · exact ⟨le_max_left _ _, max_le (by norm_num) (by linarith [hagent.2])⟩
        · exact ⟨le_min (by norm_num) (by linarith [hagent.1]), min_le_left _ _⟩
      · simp only [if_neg hk]
        exact h e0 he0

/-- C8: for every store in which each agent's reputation lies in [0, 100]
(the documented invariant, which holds for fresh and seeded agents alike),
every finite sequence of `updateReputation` calls — any mix of agent ids,
successes and failures — leaves every stored reputation inside [0, 100];
since the sequence is universally quantified, the bound holds after every
intermediate call as well. -/
theorem reputation_clamp (reg : AgentRegistry)
    (h : ∀ e ∈ reg.agents, 0 ≤ e.2.reputation ∧ e.2.reputation ≤ 100)
    (calls : List (String × Bool × JsDate)) :
    ∀ e ∈ (calls.foldl
        (fun r c => SAPRegistry.updateReputation r c.1 c.2.1 c.2.2) reg).agents,
      0 ≤ e.2.reputation ∧ e.2.reputation ≤ 100 := by
  induction calls generalizing reg with
  | nil => exact h
  | cons c cs ih =>
      simp only [List.foldl_cons]
      exact ih _ (updateReputation_preserves_clamp reg c.1 c.2.1 c.2.2 h)

/-- C8 (witness): three calls on `reg0` — two failures then a success —
keep every stored reputation inside [0, 100]. -/
theorem reputation_clamp_witness :
    ((([("x", false, "t1"), ("x", false, "t2"), ("x", true, "t3")] :
        List (String × Bool × JsDate)).foldl
        (fun r c => SAPRegistry.updateReputation r c.1 c.2.1 c.2.2) reg0).agents.all
      (fun e => decide (0 ≤ e.2.reputation) && decide (e.2.reputation ≤ 100))) =
      true := by
  have h := reputation_clamp reg0 (by
    intro e he
    simp only [reg0, List.mem_singleton] at he
    rcases he with rfl
    norm_num [agentX])
    [("x", false, "t1"), ("x", false, "t2"), ("x", true, "t3")]
  rw [List.all_eq_true]
  intro e he
  rcases h e he with ⟨h1, h2⟩
  simp [h1, h2]

/-- C10: whenever `executeSkill` rejects — unknown skill id, missing
handler, missing required parameter, or a handler that itself rejects —
the error is returned to the caller and the registry (in particular every
skill's `usageCount`) is left exactly unchanged; the usage increment
happens only after the handler resolves. -/
theorem executeSkill_error_preserves_registry (reg : AgentRegistry)
    (skillHandlers : List (String × SkillManager.Handler)) (skillId : String)
    (parameters : List (String × JValue)) (e : String)
    (h : (SkillManager.executeSkill reg skillHandlers skillId parameters).1 =
      Except.error e) :
    (SkillManager.executeSkill reg skillHandlers skillId parameters).2 = reg := by
  unfold SkillManager.executeSkill
  cases hg : SAPRegistry.getSkill reg skillId with
  | none => rfl
  | some skill =>
      dsimp only
      cases hh : skillHandlers.find? (fun en => en.1 = skillId) with
      | none => rfl
      | some hd =>
          dsimp only
          cases hp : skill.parameters.find?
              (fun param => param.required &&
                !(parameters.any (fun en => en.1 = param.name))) with
          | some param => rfl
          | none =>
              dsimp only
              cases hr : hd.2 parameters with
              | error err => rfl
              | ok result =>
                  exfalso
                  unfold SkillManager.executeSkill at h
                  simp only [hg, hh, hp, hr] at h
                  simp at h

/-- C10 (witness): executing `skillS` with a rejecting handler propagates
the handler's error and leaves `reg0` unchanged. -/
theorem executeSkill_error_preserves_registry_witness :
    (SkillManager.executeSkill reg0 failingHandlers "s" []).1 =
        Except.error "handler exploded" ∧
    (SkillManager.executeSkill reg0 failingHandlers "s" []).2 = reg0 :=
  ⟨rfl,
   executeSkill_error_preserves_registry reg0 failingHandlers "s" []
     "handler exploded" rfl⟩

/-- C1 (code evaluation at the failing input): `updateTaskStatus` has no
"already terminal" guard.  Completing task `t` of `reg0` and then calling
`updateTaskStatus` again with the other terminal status applies a second
reputation delta (`tasksCompleted` reaches 2 and the reputation is pushed
back to 0 by the failure delta) and a second usage increment
(`usageCount` reaches 2), and the task leaves the `completed` terminal
state — first to `failed`, and a further call can even return it to
`pending`. -/
theorem updateTaskStatus_double_terminal_effects :
    (SAPRegistry.getSkill reg0AfterRefail "s").map AgentSkill.usageCount = some 2 ∧
    (SAPRegistry.getAgent reg0AfterRefail "x").map AgentProfile.tasksCompleted =
      some 2 ∧
    (SAPRegistry.getAgent reg0AfterRefail "x").map AgentProfile.reputation =
      some 0 ∧
    (SAPRegistry.getTask reg0AfterRefail "t").map AgentTask.status =
      some TaskStatus.failed ∧
    (SAPRegistry.getTask
        (SAPRegistry.updateTaskStatus reg0AfterComplete "t" TaskStatus.pending
          none none "t3")
        "t").map AgentTask.status = some TaskStatus.pending := by
  simp [reg0AfterRefail, reg0AfterComplete, SAPRegistry.updateTaskStatus,
    SAPRegistry.getTask, SAPRegistry.getAgent, SAPRegistry.getSkill,
    SAPRegistry.updateReputation, mapMutate, List.find?,
    reg0, agentX, skillS, taskT, min_def, max_def]
  norm_num

/-- C5 (counterexample): an import whose `agents` field loads but whose
`skills` field cannot be fed to `new Map` (here the number `0`) is caught,
yet leaves the store changed: the agents map was already replaced by the
empty map before the failure, while skills and tasks keep their prior
values — the three maps are not "exactly as they were". -/
theorem importData_partial_on_mid_failure :
    jsNewMap (some (JValue.jnum 0)) =
      Except.error "TypeError: value is not iterable" ∧
    (importData stJs (some badParsed)).agents ≠ stJs.agents ∧
    (importData stJs (some badParsed)).skills = stJs.skills ∧
    (importData stJs (some badParsed)).tasks = stJs.tasks := by
  refine ⟨rfl, ?_, rfl, rfl⟩
  simp [importData, stJs, badParsed, jsGet, jsNewMap, mapEntries, List.find?]

/-- C5 (amended): every import failure is caught (`importData` totally
returns a registry).  When the failure happens before the agents map is
replaced — `JSON.parse` throwing, the property access throwing, or the
`agents` field failing to load — all three maps are exactly the prior
maps; a failure while loading `skills` leaves the agents map already
replaced (skills and tasks untouched), and a failure while loading
`tasks` leaves agents and skills replaced (tasks untouched). -/
theorem importData_failure_cases (st : JsRegistry) :
    (importData st none = st) ∧
    (∀ v e, jsGet v "agents" = Except.error e → importData st (some v) = st) ∧
    (∀ v f e, jsGet v "agents" = Except.ok f → jsNewMap f = Except.error e →
      importData st (some v) = st) ∧
    (∀ v f ags f2 e, jsGet v "agents" = Except.ok f →
      jsNewMap f = Except.ok ags → jsGet v "skills" = Except.ok f2 →
      jsNewMap f2 = Except.error e →
      importData st (some v) = { st with agents := ags }) ∧
    (∀ v f ags f2 sks f3 e, jsGet v "agents" = Except.ok f →
      jsNewMap f = Except.ok ags → jsGet v "skills" = Except.ok f2 →
      jsNewMap f2 = Except.ok sks → jsGet v "tasks" = Except.ok f3 →
      jsNewMap f3 = Except.error e →
      importData st (some v) = { st with agents := ags, skills := sks }) := by
  refine ⟨rfl, ?_, ?_, ?_, ?_⟩
  · intro v e h1
    unfold importData
    simp only [h1]
  · intro v f e h1 h2
    unfold importData
    simp only [h1, h2]
  · intro v f ags f2 e h1 h2 h3 h4
    unfold importData
    simp only [h1, h2, h3, h4]
  · intro v f ags f2 sks f3 e h1 h2 h3 h4 h5 h6
    unfold importData
    simp only [h1, h2, h3, h4, h5, h6]

/-- C5 (witness): a parse failure and an agents-field failure leave `stJs`
untouched; the `badParsed` snapshot fails at `skills` and keeps the
already-replaced empty agents map. -/
theorem importData_failure_cases_witness :
    importData stJs none = stJs ∧
    importData stJs (some (JValue.jobj [("agents", JValue.jnum 0)])) = stJs ∧
    importData stJs (some badParsed) = { stJs with agents := [] } :=
  ⟨(importData_failure_cases stJs).1,
   (importData_failure_cases stJs).2.2.1
     (JValue.jobj [("agents", JValue.jnum 0)]) (some (JValue.jnum 0))
     "TypeError: value is not iterable" rfl rfl,
   (importData_failure_cases stJs).2.2.2.1 badParsed
     (some (JValue.jarr [])) [] (some (JValue.jnum 0))
     "TypeError: value is not iterable" rfl rfl rfl rfl⟩

/-- JSON-encoding an entry array `[[k1,v1],...]` encodes each key and
value pointwise (an entry array is never `undefined`). -/
theorem jsonEncodeList_entries (m : List (JValue × JValue)) :
    JValue.jsonEncodeList (m.map (fun e => JValue.jarr [e.1, e.2])) =
      (m.map (fun e => (JValue.jsonEncode e.1, JValue.jsonEncode e.2))).map
        (fun e => JValue.jarr [e.1, e.2]) := by
  induction m with
  | nil => rfl
  | cons e es ih =>
      simp only [List.map_cons, JValue.jsonEncodeList, ih]
      rfl

/-- Rebuilding a map from an array of two-element entry arrays recovers
exactly the listed pairs. -/
theorem mapEntries_pairs (m : List (JValue × JValue)) :
    mapEntries (m.map (fun e => JValue.jarr [e.1, e.2])) = Except.ok m := by
  induction m with
  | nil => rfl
  | cons e es ih =>
      simp only [List.map_cons, mapEntries, mapEntryOf, ih]
      rfl

/-- `new Map` applied to the JSON round trip of an entry array yields the
pointwise-encoded entries. -/
theorem jsNewMap_encoded_entries (m : List (JValue × JValue)) :
    jsNewMap (some (JValue.jsonEncode (entriesToJs m))) =
      Except.ok (m.map (fun e => (JValue.jsonEncode e.1, JValue.jsonEncode e.2))) := by
  simp only [entriesToJs, JValue.jsonEncode, jsNewMap, jsonEncodeList_entries,
    mapEntries_pairs]

/-- C6 (amended): `importData(exportData())` always succeeds and restores
all three maps up to the JSON encoding of each key and each stored value:
the counts of agents, skills and tasks are preserved exactly, keys (plain
strings) are preserved exactly, and every attribute of every entity is
preserved except that `Date`-valued attributes come back as their
ISO-8601 strings (and `undefined`-valued optional attributes come back
absent). -/
theorem importData_exportData_roundtrip (reg : AgentRegistry) :
    importData reg.toJs (some (exportParsed reg)) =
      { agents := reg.toJs.agents.map
          (fun e => (JValue.jsonEncode e.1, JValue.jsonEncode e.2)),
        skills := reg.toJs.skills.map
          (fun e => (JValue.jsonEncode e.1, JValue.jsonEncode e.2)),
        tasks := reg.toJs.tasks.map
          (fun e => (JValue.jsonEncode e.1, JValue.jsonEncode e.2)) } ∧
    (importData reg.toJs (some (exportParsed reg))).agents.length =
      reg.agents.length ∧
    (importData reg.toJs (some (exportParsed reg))).skills.length =
      reg.skills.length ∧
    (importData reg.toJs (some (exportParsed reg))).tasks.length =
      reg.tasks.length := by
  have hmain :
      importData reg.toJs (some (exportParsed reg)) =
        { agents := reg.toJs.agents.map
            (fun e => (JValue.jsonEncode e.1, JValue.jsonEncode e.2)),
          skills := reg.toJs.skills.map
            (fun e => (JValue.jsonEncode e.1, JValue.jsonEncode e.2)),
          tasks := reg.toJs.tasks.map
            (fun e => (JValue.jsonEncode e.1, JValue.jsonEncode e.2)) } := by
    unfold importData exportParsed
    have d1 : decide ("agents" = "skills") = false := rfl
    have d2 : decide ("agents" = "tasks") = false := rfl
    have d3 : decide ("skills" = "tasks") = false := rfl
    simp only [entriesToJs, JValue.jsonEncode, JValue.jsonEncodeFields,
      JValue.isUndef, jsGet, List.find?, decide_True, decide_False, d1, d2, d3,
      Option.map_some', jsonEncodeList_entries, mapEntries_pairs, jsNewMap]
  refine ⟨hmain, ?_, ?_, ?_⟩ <;>
    (rw [hmain]; simp [AgentRegistry.toJs])

/-- C6 (counterexample): on the reachable one-agent registry `regC6`
(one `registerAgent` call on a fresh store) the round trip does not
reproduce identical field values: the stored profile's `createdAt` is a
`Date` object before export but its ISO string after import. -/
theorem export_import_changes_date_fields :
    ((importData regC6.toJs (some (exportParsed regC6))).agents.head?.map
        (fun e => jsGet e.2 "createdAt")) =
      some (Except.ok (some (JValue.jstr "t0"))) ∧
    (regC6.toJs.agents.head?.map (fun e => jsGet e.2 "createdAt")) =
      some (Except.ok (some (JValue.jdate "t0"))) ∧
    JValue.jstr "t0" ≠ JValue.jdate "t0" := by
  refine ⟨?_, rfl, by simp⟩
  rfl

/-- The crawl result of an agent always carries that agent's id. -/
theorem crawlAgent_agentId (o : CrawlOracles) (now : String) (agent : AgentProfile) :
    (crawlAgent o now agent).1.agentId = agent.id := by
  unfold crawlAgent
  cases hg : agent.github with
  | none => cases hd : fetchAgentTokenData o.fetchTokenData agent.name <;> rfl
  | some url =>
      dsimp only
      cases hs : o.fetchGitHubStats url <;> dsimp only <;>
        cases hd : fetchAgentTokenData o.fetchTokenData agent.name <;> rfl

/-- For an agent with no source-repo link and no token-map entry, the loop
body produces an empty sources list, score 0 and the empty fresh snapshot. -/
theorem crawlAgent_unmapped (o : CrawlOracles) (now : String) (p : AgentProfile)
    (hgh : p.github = none)
    (hmap : AGENT_TOKEN_MAP.find? (fun e => e.1 = p.name) = none) :
    crawlAgent o now p =
      ({ agentId := p.id, agentName := p.name, sources := [], liveScore := 0,
         updatedAt := now },
       { lastCrawledAt := now, crawlSource := [], liveScore := some 0 }) := by
  unfold crawlAgent fetchAgentTokenData
  simp only [hgh, hmap]
  norm_num [min_def, max_def]

/-- A crawl step leaves every other agent's stored profile untouched. -/
theorem crawlStep_getAgent_other (o : CrawlOracles) (now : String)
    (acc : AgentRegistry × List CrawlResult) (agent : AgentProfile) (k : String)
    (hk : k ≠ agent.id) :
    SAPRegistry.getAgent (crawlStep o now acc agent).1 k =
      SAPRegistry.getAgent acc.1 k := by
  unfold crawlStep
  cases hg : SAPRegistry.getAgent acc.1 agent.id with
  | none => rfl
  | some cur =>
      dsimp only
      unfold SAPRegistry.getAgent
      rw [find?_mapMutate_other _ _ _ _ hk]

/-- A crawl step overwrites the processed agent's stored `liveData` with
the fresh snapshot computed from the processed profile. -/
theorem crawlStep_getAgent_self (o : CrawlOracles) (now : String)
    (acc : AgentRegistry × List CrawlResult) (agent : AgentProfile)
    (cur : AgentProfile)
    (hcur : SAPRegistry.getAgent acc.1 agent.id = some cur) :
    SAPRegistry.getAgent (crawlStep o now acc agent).1 agent.id =
      some { cur with liveData := some (crawlAgent o now agent).2 } := by
  unfold crawlStep
  rw [hcur]
  dsimp only
  have h' := hcur
  unfold SAPRegistry.getAgent at h' ⊢
  obtain ⟨e, hfind, he2⟩ := Option.map_eq_some'.mp h'
  rw [find?_mapMutate_self, hfind]
  simp [he2]

/-- Folding crawl steps over agents whose ids all differ from `k` leaves
the entry at `k` untouched. -/
theorem foldl_crawlStep_getAgent_frame (o : CrawlOracles) (now : String)
    (as : List AgentProfile) (k : String) :
    ∀ acc : AgentRegistry × List CrawlResult, (∀ a ∈ as, a.id ≠ k) →
      SAPRegistry.getAgent (as.foldl (crawlStep o now) acc).1 k =
        SAPRegistry.getAgent acc.1 k := by
  induction as with
  | nil => intro acc _; rfl
  | cons a as ih =>
      intro acc h
      rw [List.foldl_cons, ih _ (fun b hb => h b (List.mem_cons_of_mem a hb)),
        crawlStep_getAgent_other]
      exact fun hk => h a (List.mem_cons_self a as) hk.symm

/-- Results accumulated by the fold never carry id `k` when every
processed agent either has a different id or contributes no source. -/
theorem foldl_crawlStep_results_frame (o : CrawlOracles) (now : String)
    (as : List AgentProfile) (k : String) :
    ∀ acc : AgentRegistry × List CrawlResult,
      (∀ a ∈ as, a.id ≠ k ∨ (crawlAgent o now a).1.sources = []) →
      (∀ r ∈ acc.2, r.agentId ≠ k) →
      ∀ r ∈ (as.foldl (crawlStep o now) acc).2, r.agentId ≠ k := by
  induction as with
  | nil => intro acc _ hacc; exact hacc
  | cons a as ih =>
      intro acc h hacc
      rw [List.foldl_cons]
      refine ih _ (fun b hb => h b (List.mem_cons_of_mem a hb)) ?_
      intro r hr
      unfold crawlStep at hr
      dsimp only at hr
      by_cases hs : (crawlAgent o now a).1.sources.length > 0
      · rw [if_pos hs] at hr
        rcases List.mem_append.mp hr with hr1 | hr2
        · exact hacc r hr1
        · rcases List.mem_singleton.mp hr2 with rfl
          rcases h a (List.mem_cons_self a as) with hid | hsrc
          · rw [crawlAgent_agentId]; exact hid
          · exfalso; rw [hsrc] at hs; simp at hs
      · rw [if_neg hs] at hr
        exact hacc r hr

/-- `find?` on an association list whose prefix does not carry key `k`
finds the explicit `(k, p)` entry. -/
theorem find?_append_key {α : Type} (l1 l2 : List (String × α)) (k : String)
    (p : α) (h : ∀ e ∈ l1, e.1 ≠ k) :
    (l1 ++ (k, p) :: l2).find? (fun e => e.1 = k) = some (k, p) := by
  induction l1 with
  | nil => simp [List.find?]
  | cons e es ih =>
      rw [List.cons_append,
        List.find?_cons_of_neg _ (by simpa using h e (List.mem_cons_self e es))]
      exact ih (fun b hb => h b (List.mem_cons_of_mem e hb))

/-- In an association list with no duplicate keys, the entry at key `k`
is unique. -/
theorem nodup_key_unique {α : Type} (l : List (String × α)) (k : String)
    (p q : α) (hnodup : (l.map Prod.fst).Nodup)
    (hp : (k, p) ∈ l) (hq : (k, q) ∈ l) : p = q := by
  induction l with
  | nil => cases hp
  | cons e es ih =>
      rw [List.map_cons, List.nodup_cons] at hnodup
      rcases List.mem_cons.mp hp with hp1 | hp2 <;>
        rcases List.mem_cons.mp hq with hq1 | hq2
      · simpa using (Prod.ext_iff.mp (hp1.trans hq1.symm)).2
      · exfalso
        apply hnodup.1
        have he1 : e.1 = k := by rw [← hp1]
        rw [he1]
        simpa using List.mem_map_of_mem Prod.fst hq2
      · exfalso
        apply hnodup.1
        have he1 : e.1 = k := by rw [← hq1]
        rw [he1]
        simpa using List.mem_map_of_mem Prod.fst hp2
      · exact ih hnodup.2 hp2 hq2

/-- After one `runCycle`, every agent entry whose key is its profile id
(and with no duplicate keys) holds its prior profile with `liveData`
overwritten by the fresh snapshot computed from that profile. -/
theorem runCycle_getAgent (o : CrawlOracles) (now : String) (reg : AgentRegistry)
    (hids : ∀ e ∈ reg.agents, e.2.id = e.1)
    (hnodup : (reg.agents.map Prod.fst).Nodup) :
    ∀ k p, (k, p) ∈ reg.agents →
      SAPRegistry.getAgent (runCycle o now reg).1 k =
        some { p with liveData := some (crawlAgent o now p).2 } := by
  intro k p hmem
  obtain ⟨l1, l2, hsplit⟩ := List.append_of_mem hmem
  have hids' := hids
  rw [hsplit] at hnodup hids'
  rw [List.map_append, List.map_cons] at hnodup
  obtain ⟨hn1, hn2, hdisj⟩ := List.nodup_append.mp hnodup
  have hk2 : k ∉ l2.map Prod.fst := (List.nodup_cons.mp hn2).1
  have hk1 : k ∉ l1.map Prod.fst := fun hmem1 =>
    hdisj hmem1 (List.mem_cons_self _ _)
  have hpid : p.id = k := hids' (k, p) (by simp)
  unfold runCycle SAPRegistry.listAgents
  rw [hsplit, List.map_append, List.map_cons, List.foldl_append, List.foldl_cons]
  have hl2 : ∀ a ∈ l2.map Prod.snd, a.id ≠ k := by
    intro a ha
    rcases List.mem_map.mp ha with ⟨e, he, rfl⟩
    have : e.2.id = e.1 := hids' e (by simp [he])
    rw [this]
    exact fun hek => hk2 (hek ▸ List.mem_map_of_mem Prod.fst he)
  rw [foldl_crawlStep_getAgent_frame o now _ k _ hl2]
  have hl1 : ∀ a ∈ l1.map Prod.snd, a.id ≠ k := by
    intro a ha
    rcases List.mem_map.mp ha with ⟨e, he, rfl⟩
    have : e.2.id = e.1 := hids' e (by simp [he])
    rw [this]
    exact fun hek => hk1 (hek ▸ List.mem_map_of_mem Prod.fst he)
  have hbase :
      SAPRegistry.getAgent
          ((l1.map Prod.snd).foldl (crawlStep o now) (reg, [])).1 k =
        some p := by
    rw [foldl_crawlStep_getAgent_frame o now _ k _ hl1]
    unfold SAPRegistry.getAgent
    rw [hsplit, find?_append_key]
    · rfl
    · intro e he hek
      exact hk1 (hek ▸ List.mem_map_of_mem Prod.fst he)
  rw [← hpid] at hbase ⊢
  rw [crawlStep_getAgent_self o now _ p p hbase]

/-- C2 (amended): in any single crawl cycle over a well-keyed store (each
entry keyed by its profile id, no duplicate keys), an agent with no
source-repo link and no `AGENT_TOKEN_MAP` entry finishes the cycle with an
empty sources list and is excluded from the cycle's results — but its
stored `liveData` *is* overwritten, with the fresh empty snapshot
(`crawlSource = []`, `liveScore = 0`, only the crawl timestamp set);
every other agent, the mapped ones included, is likewise updated with the
snapshot computed from its own profile in the same cycle. -/
theorem runCycle_unmapped_agent_frame (o : CrawlOracles) (now : String)
    (reg : AgentRegistry) (k : String) (p : AgentProfile)
    (hids : ∀ e ∈ reg.agents, e.2.id = e.1)
    (hnodup : (reg.agents.map Prod.fst).Nodup)
    (hmem : (k, p) ∈ reg.agents)
    (hgh : p.github = none)
    (hmap : AGENT_TOKEN_MAP.find? (fun e => e.1 = p.name) = none) :
    (crawlAgent o now p).1.sources = [] ∧
    SAPRegistry.getAgent (runCycle o now reg).1 k =
      some { p with liveData :=
        (some { lastCrawledAt := now, crawlSource := [], liveScore := some 0 }) } ∧
    (∀ r ∈ (runCycle o now reg).2, r.agentId ≠ k) ∧
    (∀ k2 p2, (k2, p2) ∈ reg.agents →
      SAPRegistry.getAgent (runCycle o now reg).1 k2 =
        some { p2 with liveData := some (crawlAgent o now p2).2 }) := by
  have hC := crawlAgent_unmapped o now p hgh hmap
  refine ⟨by rw [hC], ?_, ?_, runCycle_getAgent o now reg hids hnodup⟩
  · rw [runCycle_getAgent o now reg hids hnodup k p hmem, hC]
  · unfold runCycle
    refine foldl_crawlStep_results_frame o now _ k _ ?_ (by simp)
    intro a ha
    unfold SAPRegistry.listAgents at ha
    rcases List.mem_map.mp ha with ⟨e, he, rfl⟩
    by_cases hid : e.2.id = k
    · right
      have hek : e.1 = k := by rw [← hids e he]; exact hid
      have hkmem : (k, e.2) ∈ reg.agents := by
        rw [← hek]; simpa using he
      have hep : e.2 = p := nodup_key_unique reg.agents k e.2 p hnodup hkmem hmem
      rw [hep, hC]
    · left; exact hid

/-- C2 (witness): in the concrete two-agent cycle, the unmapped
`Photon Sol` agent contributes no source and no result yet gets the empty
snapshot, while every stored agent (`BonkBot` included) receives the
snapshot computed from its own profile. -/
theorem runCycle_unmapped_agent_frame_witness :
    (crawlAgent demoOracles "2024-06-01T00:00:00.000Z" unmappedAgent).1.sources = [] ∧
    SAPRegistry.getAgent
        (runCycle demoOracles "2024-06-01T00:00:00.000Z" crawlReg).1 "u" =
      some { unmappedAgent with liveData :=
        (some { lastCrawledAt := "2024-06-01T00:00:00.000Z", crawlSource := [],
                liveScore := some 0 }) } ∧
    (∀ r ∈ (runCycle demoOracles "2024-06-01T00:00:00.000Z" crawlReg).2,
      r.agentId ≠ "u") ∧
    (∀ k2 p2, (k2, p2) ∈ crawlReg.agents →
      SAPRegistry.getAgent
          (runCycle demoOracles "2024-06-01T00:00:00.000Z" crawlReg).1 k2 =
        some { p2 with liveData :=
          (some (crawlAgent demoOracles "2024-06-01T00:00:00.000Z" p2).2) }) := by
  refine runCycle_unmapped_agent_frame demoOracles "2024-06-01T00:00:00.000Z"
    crawlReg "u" unmappedAgent ?_ ?_ ?_ rfl rfl
  · intro e he
    simp only [crawlReg, List.mem_cons, List.not_mem_nil, or_false] at he
    rcases he with rfl | rfl <;> rfl
  · simp [crawlReg]
  · simp [crawlReg]

/-- C2 (counterexample): the claim's "no live-data overwrite" part is
false — the unmapped `Photon Sol` agent enters the cycle carrying the
snapshot `oldLive` and leaves it carrying the fresh empty snapshot of this
cycle instead. -/
theorem runCycle_overwrites_unmapped_liveData :
    unmappedAgent.liveData = some oldLive ∧
    (SAPRegistry.getAgent
        (runCycle demoOracles "2024-06-01T00:00:00.000Z" crawlReg).1 "u").map
      AgentProfile.liveData =
      some (some { lastCrawledAt := "2024-06-01T00:00:00.000Z",
                   crawlSource := [], liveScore := some 0 }) ∧
    (some { lastCrawledAt := "2024-06-01T00:00:00.000Z", crawlSource := [],
            liveScore := some (0 : ℚ) } : Option AgentLiveData) ≠ some oldLive := by
  have hids : ∀ e ∈ crawlReg.agents, e.2.id = e.1 := by
    intro e he
    simp only [crawlReg, List.mem_cons, List.not_mem_nil, or_false] at he
    rcases he with rfl | rfl <;> rfl
  have hnodup : (crawlReg.agents.map Prod.fst).Nodup := by simp [crawlReg]
  have hmem : ("u", unmappedAgent) ∈ crawlReg.agents := by simp [crawlReg]
  refine ⟨rfl, ?_, by simp [oldLive]⟩
  rw [runCycle_getAgent demoOracles "2024-06-01T00:00:00.000Z" crawlReg hids
      hnodup "u" unmappedAgent hmem,
    crawlAgent_unmapped demoOracles "2024-06-01T00:00:00.000Z" unmappedAgent rfl rfl]
  rfl

end AgentPass
